import Mathlib

/-!
Shallow embedding of the oximod schema-driven MongoDB mapping layer:
the validation engine, the global client bootstrap, and the CRUD
translator generated by the `Model` derive macro
(`oximod_macros/src/lib.rs`, `oximod_core/src/feature/conn/client.rs`,
`oximod_core/src/error/oximod_error.rs`).

Rust string values are modelled as `List Char`; `str::len()` is the
UTF-8 byte count of the list.  Fallible store commands are modelled as
`Except String _` outcomes supplied by an environment record, and the
regex engine is an oracle parameter (compilation may fail, matching is
a boolean function).
-/

set_option linter.unusedVariables false

deriving instance DecidableEq for Except

namespace Oximod

/-- Error taxonomy: mirrors `OximodError` in
`oximod_core/src/error/oximod_error.rs` (each variant carries its
message string). -/
inductive OximodError where
  | ConnectionError (msg : String)
  | GlobalClientInitError (msg : String)
  | GlobalClientMissing (msg : String)
  | SerializationError (msg : String)
  | AggregationError (msg : String)
  | IndexError (msg : String)
  | ValidationError (msg : String)
  deriving DecidableEq, Repr

/-- Rust `str::len()`: the UTF-8 byte length (a Rust string is modelled
as its list of characters). -/
def rustLen (s : List Char) : Nat :=
  (s.map Char.utf8Size).sum

/-- Rust `str::contains(c)` for a `char` needle. -/
def containsC (c : Char) : List Char → Bool
  | [] => false
  | a :: rest => a == c || containsC c rest

/-- Rust `str::split(c).collect::<Vec<_>>()`: the maximal runs between
occurrences of the separator; `n` separators yield `n + 1` parts. -/
def splitChar (sep : Char) : List Char → List (List Char)
  | [] => [[]]
  | a :: rest =>
    if a == sep then [] :: splitChar sep rest
    else
      match splitChar sep rest with
      | [] => [[a]]
      | p :: ps => (a :: p) :: ps

/-- Rust `str::trim()`: drop leading and trailing whitespace. -/
def rustTrim (s : List Char) : List Char :=
  ((s.dropWhile Char.isWhitespace).reverse.dropWhile Char.isWhitespace).reverse

/-- The parsed `#[validate(...)]` arguments: mirrors `ValidateArgs` in
`oximod_macros/src/lib.rs` (one optional slot per rule key). -/
structure ValidateArgs where
  min_length : Option Nat := none
  max_length : Option Nat := none
  required : Option Bool := none
  email : Option Bool := none
  pattern : Option String := none
  non_empty : Option Bool := none
  positive : Option Bool := none
  negative : Option Bool := none
  non_negative : Option Bool := none
  min : Option Int := none
  max : Option Int := none
  deriving DecidableEq, Repr

/-- The runtime value of a validated field.  The generated checks are
typed by the Rust field they mention: length checks compile only on
plain strings, option-matching checks only on optional fields, sign and
bound checks only on integers. -/
inductive FieldValue where
  | str (s : List Char)
  | optStr (o : Option (List Char))
  | int (n : Int)
  deriving DecidableEq, Repr

def minLengthMsg (f : String) (n : Nat) : String :=
  "Field '" ++ f ++ "' must be at least " ++ toString n ++ " characters long"

def maxLengthMsg (f : String) (n : Nat) : String :=
  "Field '" ++ f ++ "' must be at most " ++ toString n ++ " characters long"

def requiredMsg (f : String) : String :=
  "Field '" ++ f ++ "' is required"

def emailMsg (f : String) : String :=
  "Field '" ++ f ++ "' must be a valid email address"

def patternInvalidMsg (f : String) (e : String) : String :=
  "Invalid regex pattern in validation for '" ++ f ++ "': " ++ e

def patternMismatchMsg (f : String) : String :=
  "Field '" ++ f ++ "' does not match the required pattern"

def nonEmptyBlankMsg (f : String) : String :=
  "Field '" ++ f ++ "' must be non-empty"

def nonEmptyMissingMsg (f : String) : String :=
  "Field '" ++ f ++ "' is missing but marked as non-empty"

def positiveMsg (f : String) : String :=
  "Field '" ++ f ++ "' must be positive"

def negativeMsg (f : String) : String :=
  "Field '" ++ f ++ "' must be negative"

def nonNegativeMsg (f : String) : String :=
  "Field '" ++ f ++ "' must be non-negative"

def minMsg (f : String) (n : Int) : String :=
  "Field '" ++ f ++ "' must be at least " ++ toString n

def maxMsg (f : String) (n : Int) : String :=
  "Field '" ++ f ++ "' must be at most " ++ toString n

/-- Shorthand for returning a `ValidationError`. -/
def vErr (m : String) : Except OximodError Unit :=
  .error (.ValidationError m)

/-- The `min_length` check emitted by the derive macro
(`oximod_macros/src/lib.rs` lines 401-411).  On a non-string field the
emitted Rust would not compile, so only the string shape is checked. -/
def minLengthCheck (f : String) (n : Nat) (v : FieldValue) : Except OximodError Unit :=
  match v with
  | .str s => if rustLen s < n then vErr (minLengthMsg f n) else .ok ()
  | _ => .ok ()

/-- The `max_length` check (lines 413-423). -/
def maxLengthCheck (f : String) (n : Nat) (v : FieldValue) : Except OximodError Unit :=
  match v with
  | .str s => if rustLen s > n then vErr (maxLengthMsg f n) else .ok ()
  | _ => .ok ()

/-- The `required` check (lines 425-441): matches the option, erroring
on `None`. -/
def requiredCheck (f : String) (v : FieldValue) : Except OximodError Unit :=
  match v with
  | .optStr none => vErr (requiredMsg f)
  | _ => .ok ()

/-- The body of the `email` check run on a present value
(lines 466-487): first a coarse containment test on `'@'` and `'.'`,
then a split on `'@'` requiring exactly two parts, both non-empty, the
second containing a `'.'`. -/
def emailCheckVal (f : String) (e : List Char) : Except OximodError Unit :=
  if !(containsC '@' e && containsC '.' e) then vErr (emailMsg f)
  else
    let parts := splitChar '@' e
    if parts.length != 2 || (parts.getD 0 []).isEmpty || (parts.getD 1 []).isEmpty
        || !(containsC '.' (parts.getD 1 [])) then
      vErr (emailMsg f)
    else .ok ()

/-- The `email` check: applies only when the optional field is
present (`if let Some(email) = &self.field`). -/
def emailCheck (f : String) (v : FieldValue) : Except OximodError Unit :=
  match v with
  | .optStr (some e) => emailCheckVal f e
  | _ => .ok ()

/-- The regex engine as an oracle: compiling a pattern either fails
with a syntax error message or yields a boolean matcher. -/
def RegexOracle : Type :=
  String → Except String (List Char → Bool)

/-- The `pattern` check (lines 489-509): applies only to a present
value; regex compilation failure is itself a `ValidationError`. -/
def patternCheck (rx : RegexOracle) (f : String) (p : String) (v : FieldValue) :
    Except OximodError Unit :=
  match v with
  | .optStr (some s) =>
    match rx p with
    | .error e => .error (.ValidationError (patternInvalidMsg f e))
    | .ok m => if !(m s) then vErr (patternMismatchMsg f) else .ok ()
  | _ => .ok ()

/-- The `non_empty` check (lines 511-528): blank-after-trim when
present, a dedicated message when absent. -/
def nonEmptyCheck (f : String) (v : FieldValue) : Except OximodError Unit :=
  match v with
  | .optStr (some s) => if (rustTrim s).isEmpty then vErr (nonEmptyBlankMsg f) else .ok ()
  | .optStr none => vErr (nonEmptyMissingMsg f)
  | _ => .ok ()

/-- The `positive` check (lines 530-542): fails on `<= 0`. -/
def positiveCheck (f : String) (v : FieldValue) : Except OximodError Unit :=
  match v with
  | .int n => if n ≤ 0 then vErr (positiveMsg f) else .ok ()
  | _ => .ok ()

/-- The `negative` check (lines 544-556): fails on `>= 0`. -/
def negativeCheck (f : String) (v : FieldValue) : Except OximodError Unit :=
  match v with
  | .int n => if n ≥ 0 then vErr (negativeMsg f) else .ok ()
  | _ => .ok ()

/-- The `non_negative` check (lines 558-570): fails on `< 0`. -/
def nonNegativeCheck (f : String) (v : FieldValue) : Except OximodError Unit :=
  match v with
  | .int n => if n < 0 then vErr (nonNegativeMsg f) else .ok ()
  | _ => .ok ()

/-- The `min` check (lines 572-582): inclusive lower bound as `i64`. -/
def minCheck (f : String) (m : Int) (v : FieldValue) : Except OximodError Unit :=
  match v with
  | .int n => if n < m then vErr (minMsg f m) else .ok ()
  | _ => .ok ()

/-- The `max` check (lines 584-594): inclusive upper bound as `i64`. -/
def maxCheck (f : String) (m : Int) (v : FieldValue) : Except OximodError Unit :=
  match v with
  | .int n => if n > m then vErr (maxMsg f m) else .ok ()
  | _ => .ok ()

/-- One validated field of a record: its name, its parsed
`#[validate(...)]` arguments, and its runtime value. -/
structure FieldSpec where
  name : String
  args : ValidateArgs
  value : FieldValue

/-- The ordered list of checks the derive macro pushes for one field
(`oximod_macros/src/lib.rs` lines 399-596): one conditional `push` per
rule key, in the fixed textual order of the generator. -/
def fieldChecks (rx : RegexOracle) (fs : FieldSpec) : List (Except OximodError Unit) :=
  (fs.args.min_length.toList.map (fun n => minLengthCheck fs.name n fs.value)) ++
  (fs.args.max_length.toList.map (fun n => maxLengthCheck fs.name n fs.value)) ++
  (if fs.args.required = some true then [requiredCheck fs.name fs.value] else []) ++
  (if fs.args.email = some true then [emailCheck fs.name fs.value] else []) ++
  (fs.args.pattern.toList.map (fun p => patternCheck rx fs.name p fs.value)) ++
  (if fs.args.non_empty = some true then [nonEmptyCheck fs.name fs.value] else []) ++
  (if fs.args.positive = some true then [positiveCheck fs.name fs.value] else []) ++
  (if fs.args.negative = some true then [negativeCheck fs.name fs.value] else []) ++
  (if fs.args.non_negative = some true then [nonNegativeCheck fs.name fs.value] else []) ++
  (fs.args.min.toList.map (fun m => minCheck fs.name m fs.value)) ++
  (fs.args.max.toList.map (fun m => maxCheck fs.name m fs.value))

/-- Early-return semantics of the generated `validate` body: the first
failing check aborts, a check list with no failure succeeds. -/
def firstErr : List (Except OximodError Unit) → Except OximodError Unit
  | [] => .ok ()
  | c :: rest =>
    match c with
    | .error e => .error e
    | .ok () => firstErr rest

/-- The generated `fn validate(&self)` (lines 603-606): the per-field
check sequences are spliced in field declaration order into one
straight-line body of early returns. -/
def validate (rx : RegexOracle) (fields : List FieldSpec) : Except OximodError Unit :=
  firstErr (List.flatten (fields.map (fieldChecks rx)))

/-- One key of a `#[validate(...)]` attribute as declared, in source
order. -/
inductive RuleDecl where
  | minLengthD (n : Nat)
  | maxLengthD (n : Nat)
  | requiredD
  | emailD
  | patternD (p : String)
  | nonEmptyD
  | positiveD
  | negativeD
  | nonNegativeD
  | minD (n : Int)
  | maxD (n : Int)
  deriving DecidableEq, Repr

/-- One step of `parse_validate_args` (lines 145-228): each declared
key assigns its slot of the accumulating `ValidateArgs`. -/
def applyRuleDecl (args : ValidateArgs) : RuleDecl → ValidateArgs
  | .minLengthD n => { args with min_length := some n }
  | .maxLengthD n => { args with max_length := some n }
  | .requiredD => { args with required := some true }
  | .emailD => { args with email := some true }
  | .patternD p => { args with pattern := some p }
  | .nonEmptyD => { args with non_empty := some true }
  | .positiveD => { args with positive := some true }
  | .negativeD => { args with negative := some true }
  | .nonNegativeD => { args with non_negative := some true }
  | .minD n => { args with min := some n }
  | .maxD n => { args with max := some n }

/-- `parse_validate_args` over the declared key list: a left fold of
the per-key assignments starting from the all-unset default. -/
def parseValidateAttr (ds : List RuleDecl) : ValidateArgs :=
  ds.foldl applyRuleDecl {}

/-- A regex oracle for instantiations that declare no pattern rule. -/
def noRegex : RegexOracle :=
  fun _ => .error "unused"

/-- A BSON value, reduced to the shapes the claims exercise. -/
inductive BsonVal where
  | objectId (n : Nat)
  | str (s : String)
  | int (n : Int)
  deriving DecidableEq, Repr

/-- A BSON document: an ordered list of key/value pairs. -/
abbrev Document : Type :=
  List (String × BsonVal)

/-- The `doc! { "_id": id }` filter built by the by-id operations. -/
def docIdFilter (id : Nat) : Document :=
  [("_id", .objectId id)]

/-- `mongodb::results::UpdateResult`, restricted to the counted
fields. -/
structure UpdateResult where
  matched_count : Nat
  modified_count : Nat
  deriving DecidableEq, Repr

/-- `mongodb::results::DeleteResult`. -/
structure DeleteResult where
  deleted_count : Nat
  deriving DecidableEq, Repr

/-- An abstract store client handle. -/
abbrev Client : Type :=
  Nat

/-- `Printable::attach_printables` returns `self` after printing a
backtrace and a suggestion; on the error value it is the identity
(`oximod_core/src/error/printable.rs` lines 17-25). -/
def attach_printables (e : OximodError) : OximodError :=
  e

/-- `get_global_client` (`oximod_core/src/feature/conn/client.rs`
lines 32-42): the `OnceLock` content, or `GlobalClientMissing`. -/
def get_global_client (st : Option Client) : Except OximodError Client :=
  match st with
  | none => .error (.GlobalClientMissing "Failed to clone arc")
  | some c => .ok c

/-- `set_global_client` (lines 55-66): first `init_db` (whose outcome
is the `conn` argument, `ConnectionError` on failure), then
`CLIENT.set`, which fails with `GlobalClientInitError` when a client is
already stored and never replaces it.  Returns the call result and the
new `OnceLock` state. -/
def set_global_client (st : Option Client) (conn : Except String Client) :
    Except OximodError Unit × Option Client :=
  match conn with
  | .error e => (.error (.ConnectionError e), st)
  | .ok c =>
    match st with
    | some c0 => (.error (.GlobalClientInitError "CLIENT set method failed."), some c0)
    | none => (.ok (), some c)

/-- One `#[index(...)]` declaration, as compiled into an `IndexModel`
(`oximod_macros/src/lib.rs` lines 335-380). -/
structure IndexSpec where
  field : String
  order : Int := 1
  unique : Option Bool := none
  sparse : Option Bool := none
  background : Option Bool := none
  idx_name : Option String := none
  expire_after_secs : Option Nat := none
  deriving DecidableEq, Repr

/-- Outcomes of the store commands a collection handle can run, keyed
by their arguments.  `Err s` models a driver error whose display is
`s`; `from_document` is the serde deserialization of a fetched
document. -/
structure StoreEnv (α : Type) where
  create_indexes : Except String Unit
  insert_one : Document → Except String BsonVal
  update_many : Document → Document → Except String UpdateResult
  update_one : Document → Document → Except String UpdateResult
  delete_many : Document → Except String DeleteResult
  delete_one : Document → Except String DeleteResult
  find_docs : Document → Except String (List Document)
  find_one_doc : Document → Except String (Option Document)
  count_documents : Document → Except String Nat
  aggregate_docs : List Document → Except String (List Document)
  from_document : Document → Except String α

/-- `Model::get_collection` (lines 633-640): resolves the collection
handle from the global client; only the client lookup can fail. -/
def get_collection (st : Option Client) : Except OximodError Unit :=
  match get_global_client st with
  | .error e => .error e
  | .ok _ => .ok ()

/-- `_create_indexes` (lines 608-627): no command when no index is
declared, otherwise one `create_indexes` whose failure maps to
`IndexError`. -/
def create_indexes_run (specs : List IndexSpec) (env : StoreEnv α) :
    Except OximodError Unit :=
  if specs.isEmpty then .ok ()
  else
    match env.create_indexes with
    | .error e => .error (attach_printables (.IndexError e))
    | .ok () => .ok ()

/-- The observable steps of a `save` call, in issue order. -/
inductive SaveEvent where
  | getCollection
  | createIndexes
  | serialize
  | insert
  deriving DecidableEq, Repr

/-- `Model::save` (lines 642-669): validate, resolve the collection,
ensure indexes, serialize (`to_document`, whose outcome is the `toDoc`
argument), insert, then demand an `ObjectId` back.  Returns the
result, the trace of steps reached, and the collection contents after
the call (`st` is the stored document list). -/
def save (rx : RegexOracle) (fields : List FieldSpec) (specs : List IndexSpec)
    (cl : Option Client) (env : StoreEnv α) (toDoc : Except String Document)
    (st : List Document) :
    Except OximodError Nat × List SaveEvent × List Document :=
  match validate rx fields with
  | .error e => (.error e, [], st)
  | .ok () =>
    match get_collection cl with
    | .error e => (.error e, [.getCollection], st)
    | .ok () =>
      let idxEvents : List SaveEvent := if specs.isEmpty then [] else [.createIndexes]
      match create_indexes_run specs env with
      | .error e => (.error e, .getCollection :: idxEvents, st)
      | .ok () =>
        match toDoc with
        | .error e =>
          (.error (attach_printables (.SerializationError e)),
            .getCollection :: idxEvents ++ [.serialize], st)
        | .ok d =>
          match env.insert_one d with
          | .error e =>
            (.error (attach_printables (.ConnectionError e)),
              .getCollection :: idxEvents ++ [.serialize, .insert], st)
          | .ok inserted =>
            match inserted with
            | .objectId i =>
              (.ok i, .getCollection :: idxEvents ++ [.serialize, .insert], st ++ [d])
            | _ =>
              (.error (attach_printables
                  (.SerializationError "inserted_id is not an ObjectId")),
                .getCollection :: idxEvents ++ [.serialize, .insert], st ++ [d])

/-- `Model::update` (lines 671-690): `update_many` on the collection,
driver failure mapped to `ConnectionError`, counts passed through. -/
def updateM (cl : Option Client) (env : StoreEnv α) (filter upd : Document) :
    Except OximodError UpdateResult :=
  match get_collection cl with
  | .error e => .error e
  | .ok () =>
    match env.update_many filter upd with
    | .error e => .error (attach_printables (.ConnectionError e))
    | .ok r => .ok r

/-- `Model::update_one` (lines 692-711). -/
def updateOneM (cl : Option Client) (env : StoreEnv α) (filter upd : Document) :
    Except OximodError UpdateResult :=
  match get_collection cl with
  | .error e => .error e
  | .ok () =>
    match env.update_one filter upd with
    | .error e => .error (attach_printables (.ConnectionError e))
    | .ok r => .ok r

/-- `Model::delete` (lines 713-731): `delete_many`. -/
def deleteM (cl : Option Client) (env : StoreEnv α) (filter : Document) :
    Except OximodError DeleteResult :=
  match get_collection cl with
  | .error e => .error e
  | .ok () =>
    match env.delete_many filter with
    | .error e => .error (attach_printables (.ConnectionError e))
    | .ok r => .ok r

/-- `Model::delete_one` (lines 733-751). -/
def deleteOneM (cl : Option Client) (env : StoreEnv α) (filter : Document) :
    Except OximodError DeleteResult :=
  match get_collection cl with
  | .error e => .error e
  | .ok () =>
    match env.delete_one filter with
    | .error e => .error (attach_printables (.ConnectionError e))
    | .ok r => .ok r

/-- Deserializing each cursor document in order (the `while let` loop
of `find`, lines 775-791): the first serde failure aborts with
`SerializationError`. -/
def parseDocs (env : StoreEnv α) : List Document → Except OximodError (List α)
  | [] => .ok []
  | d :: ds =>
    match env.from_document d with
    | .error e => .error (attach_printables (.SerializationError e))
    | .ok r =>
      match parseDocs env ds with
      | .error e => .error e
      | .ok rest => .ok (r :: rest)

/-- `Model::find` (lines 753-794): run the query (driver failure is
`ConnectionError`), then deserialize the cursor in store order. -/
def findM (cl : Option Client) (env : StoreEnv α) (filter : Document) :
    Except OximodError (List α) :=
  match get_collection cl with
  | .error e => .error e
  | .ok () =>
    match env.find_docs filter with
    | .error e => .error (attach_printables (.ConnectionError e))
    | .ok docs => parseDocs env docs

/-- `Model::find_one` (lines 796-828): driver failure is
`ConnectionError`; a fetched document that fails to deserialize is
`SerializationError`; no match is `Ok None`. -/
def findOneM (cl : Option Client) (env : StoreEnv α) (filter : Document) :
    Except OximodError (Option α) :=
  match get_collection cl with
  | .error e => .error e
  | .ok () =>
    match env.find_one_doc filter with
    | .error e => .error (attach_printables (.ConnectionError e))
    | .ok none => .ok none
    | .ok (some d) =>
      match env.from_document d with
      | .error e => .error (attach_printables (.SerializationError e))
      | .ok r => .ok (some r)

/-- `Model::find_by_id` (lines 830-844): `find_one` on
`doc! { "_id": id }`, the error decorated by `attach_printables`. -/
def findByIdM (cl : Option Client) (env : StoreEnv α) (id : Nat) :
    Except OximodError (Option α) :=
  (findOneM cl env (docIdFilter id)).mapError attach_printables

/-- `Model::update_by_id` (lines 846-858). -/
def updateByIdM (cl : Option Client) (env : StoreEnv α) (id : Nat) (upd : Document) :
    Except OximodError UpdateResult :=
  (updateOneM cl env (docIdFilter id) upd).mapError attach_printables

/-- `Model::delete_by_id` (lines 860-871). -/
def deleteByIdM (cl : Option Client) (env : StoreEnv α) (id : Nat) :
    Except OximodError DeleteResult :=
  (deleteOneM cl env (docIdFilter id)).mapError attach_printables

/-- `Model::count` (lines 873-890). -/
def countM (cl : Option Client) (env : StoreEnv α) (filter : Document) :
    Except OximodError Nat :=
  match get_collection cl with
  | .error e => .error e
  | .ok () =>
    match env.count_documents filter with
    | .error e => .error (attach_printables (.ConnectionError e))
    | .ok n => .ok n

/-- `Model::exists` (lines 892-905): presence of a `find_one` match. -/
def existsM (cl : Option Client) (env : StoreEnv α) (filter : Document) :
    Except OximodError Bool :=
  match findOneM cl env filter with
  | .error e => .error (attach_printables e)
  | .ok o => .ok o.isSome

/-- `Model::clear` (lines 907-922): `delete_many` on the empty
filter. -/
def clearM (cl : Option Client) (env : StoreEnv α) :
    Except OximodError DeleteResult :=
  match get_collection cl with
  | .error e => .error e
  | .ok () =>
    match env.delete_many [] with
    | .error e => .error (attach_printables (.ConnectionError e))
    | .ok r => .ok r

/-- `Model::aggregate` (lines 924-938): pass-through cursor of untyped
documents, driver failure mapped to `AggregationError`. -/
def aggregateM (cl : Option Client) (env : StoreEnv α) (pipeline : List Document) :
    Except OximodError (List Document) :=
  match get_collection cl with
  | .error e => .error e
  | .ok () =>
    match env.aggregate_docs pipeline with
    | .error e => .error (attach_printables (.AggregationError e))
    | .ok docs => .ok docs

/-- A scalar builder field value. -/
inductive BaseVal where
  | bStr (s : String)
  | bInt (n : Int)
  | bBool (b : Bool)
  deriving DecidableEq, Repr

/-- A builder field value: a scalar, or an optional scalar. -/
inductive Value where
  | prim (p : BaseVal)
  | vOpt (o : Option BaseVal)
  deriving DecidableEq, Repr

/-- The type category of a builder field (scalar or
optional-scalar). -/
inductive ValTy where
  | tyString
  | tyInt
  | tyBool
  | tyOpt
  deriving DecidableEq, Repr

/-- Modelled from the spec: "the type's zero value (empty string, 0,
false, absent-optional)". -/
def zeroVal : ValTy → Value
  | .tyString => .prim (.bStr "")
  | .tyInt => .prim (.bInt 0)
  | .tyBool => .prim (.bBool false)
  | .tyOpt => .vOpt none

/-- A declared builder field: name, type category, and the optional
`#[default(...)]` expression value (`DefaultDefinition` in
`oximod_macros/src/default.rs`). -/
structure FieldDecl where
  fname : String
  ty : ValTy
  default_expr : Option Value

/-- Modelled from the spec: the generated `new()` constructor.  The
code generating `new` is not in the source tree (only the setter helper
`push_field_setters` and the tests that call `new`/`default` are);
per the spec, `new()` "initializes each field to its declared default
if present, else the type's zero value". -/
def newRecord : List FieldDecl → List (String × Value)
  | [] => []
  | f :: rest =>
    (f.fname,
      match f.default_expr with
      | some v => v
      | none => zeroVal f.ty) :: newRecord rest

/-- Modelled from the spec: the generated `default()` constructor,
which the spec requires to be behaviorally identical to `new()`. -/
def defaultRecord (fields : List FieldDecl) : List (String × Value) :=
  fields.map (fun f => (f.fname, f.default_expr.getD (zeroVal f.ty)))

/-- The fluent setter for a non-optional field generated by
`push_field_setters` (`oximod_macros/src/default.rs` lines 84-91):
assign the value to the named field and return the record. -/
def setField (r : List (String × Value)) (n : String) (v : Value) :
    List (String × Value) :=
  r.map (fun p => if p.1 = n then (p.1, v) else p)

/-- The fluent setter for an `Option<T>` field (lines 77-83): the value
is wrapped in `Some` before assignment. -/
def setFieldOpt (r : List (String × Value)) (n : String) (v : BaseVal) :
    List (String × Value) :=
  setField r n (.vOpt (some v))

/-- Field lookup in a built record. -/
def lookupField (r : List (String × Value)) (n : String) : Option Value :=
  List.lookup n r

/-- Number of occurrences of a character (used to state "contains
exactly one `'@'`"). -/
def countC (c : Char) : List Char → Nat
  | [] => 0
  | a :: rest => (if a == c then 1 else 0) + countC c rest

/-- The spec's email acceptance condition, stated in its own words:
exactly one `'@'`, the part before it and the part after it both
non-empty, and the part after it containing at least one `'.'`. -/
def emailSpec (s : List Char) : Prop :=
  countC '@' s = 1 ∧
    ∃ a b, s = a ++ '@' :: b ∧ a ≠ [] ∧ b ≠ [] ∧ containsC '.' b = true

/-- Whether an error is the init-conflict kind
(`GlobalClientInitError`). -/
def isInitConflict : OximodError → Bool
  | .GlobalClientInitError _ => true
  | _ => false

/-- Whether an error is the `ValidationError` kind. -/
def isValidationError : OximodError → Bool
  | .ValidationError _ => true
  | _ => false

/-- Whether an operation outcome is a `ValidationError`. -/
def resultIsValidationError : Except OximodError β → Bool
  | .error e => isValidationError e
  | .ok _ => false

/-- A store whose every command succeeds (used to instantiate the
operation theorems at concrete inputs). -/
def envOkStore : StoreEnv Unit where
  create_indexes := .ok ()
  insert_one := fun _ => .ok (.objectId 7)
  update_many := fun _ _ => .ok ⟨2, 1⟩
  update_one := fun _ _ => .ok ⟨1, 1⟩
  delete_many := fun _ => .ok ⟨3⟩
  delete_one := fun _ => .ok ⟨1⟩
  find_docs := fun _ => .ok []
  find_one_doc := fun _ => .ok none
  count_documents := fun _ => .ok 0
  aggregate_docs := fun p => .ok p
  from_document := fun _ => .ok ()

/-- A store whose every command fails with the same driver message. -/
def envFailStore (s : String) : StoreEnv Unit where
  create_indexes := .error s
  insert_one := fun _ => .error s
  update_many := fun _ _ => .error s
  update_one := fun _ _ => .error s
  delete_many := fun _ => .error s
  delete_one := fun _ => .error s
  find_docs := fun _ => .error s
  find_one_doc := fun _ => .error s
  count_documents := fun _ => .error s
  aggregate_docs := fun _ => .error s
  from_document := fun _ => .error s

/-- A store that finds a document which then fails to deserialize. -/
def envParseFailStore (s : String) : StoreEnv Unit :=
  { envOkStore with
    find_one_doc := fun _ => .ok (some [])
    from_document := fun _ => .error s }

theorem firstErr_append (l₁ l₂ : List (Except OximodError Unit)) :
    firstErr (l₁ ++ l₂) =
      match firstErr l₁ with
      | .error e => .error e
      | .ok () => firstErr l₂ := by
  induction l₁ with
  | nil => simp [firstErr]
  | cons c rest ih =>
    cases c with
    | error e => simp [firstErr]
    | ok u => cases u; simpa [firstErr] using ih

theorem validate_append (rx : RegexOracle) (fs gs : List FieldSpec) :
    validate rx (fs ++ gs) =
      match validate rx fs with
      | .error e => .error e
      | .ok () => validate rx gs := by
  simp [validate, List.map_append, List.flatten_append, firstErr_append]

theorem firstErr_error_mem {l : List (Except OximodError Unit)} {e : OximodError}
    (h : firstErr l = .error e) :
    (Except.error e : Except OximodError Unit) ∈ l := by
  induction l with
  | nil => simp [firstErr] at h
  | cons c rest ih =>
    cases c with
    | error e' =>
      simp [firstErr] at h
      simp [h]
    | ok u =>
      cases u
      simp [firstErr] at h
      exact List.mem_cons_of_mem _ (ih h)

theorem splitChar_ne_nil (sep : Char) : ∀ s : List Char, splitChar sep s ≠ []
  | [] => by simp [splitChar]
  | a :: rest => by
    unfold splitChar
    by_cases h : (a == sep) = true
    · simp [h]
    · simp only [h, Bool.false_eq_true, if_false]
      cases hs : splitChar sep rest <;> simp

theorem countC_append (c : Char) (a b : List Char) :
    countC c (a ++ b) = countC c a + countC c b := by
  induction a with
  | nil => simp [countC]
  | cons x xs ih => simp [countC, ih]; omega

theorem containsC_append (c : Char) (a b : List Char) :
    containsC c (a ++ b) = (containsC c a || containsC c b) := by
  induction a with
  | nil => simp [containsC]
  | cons x xs ih => simp [containsC, ih, Bool.or_assoc]

theorem length_splitChar (sep : Char) (s : List Char) :
    (splitChar sep s).length = countC sep s + 1 := by
  induction s with
  | nil => simp [splitChar, countC]
  | cons a rest ih =>
    by_cases h : (a == sep) = true
    · simp [splitChar, countC, h, ih]
      omega
    · simp only [splitChar, countC, h, Bool.false_eq_true, if_false]
      cases hs : splitChar sep rest with
      | nil => exact absurd hs (splitChar_ne_nil _ _)
      | cons p ps =>
        rw [hs] at ih
        simp at ih ⊢
        omega

theorem splitChar_eq_single {sep : Char} :
    ∀ {s p : List Char}, splitChar sep s = [p] → s = p
  | [], p, h => by simpa [splitChar] using h
  | a :: rest, p, h => by
    unfold splitChar at h
    by_cases hc : (a == sep) = true
    · rw [if_pos hc] at h
      injection h with h1 h2
      exact absurd h2 (splitChar_ne_nil _ _)
    · rw [if_neg (by simp [hc])] at h
      cases hs : splitChar sep rest with
      | nil => exact absurd hs (splitChar_ne_nil _ _)
      | cons q qs =>
        rw [hs] at h
        injection h with h1 h2
        have : rest = q := @splitChar_eq_single sep rest q (by rw [hs, h2])
        subst this h1
        rfl

theorem splitChar_eq_pair {sep : Char} :
    ∀ {s a b : List Char}, splitChar sep s = [a, b] → s = a ++ sep :: b
  | [], a, b, h => by simp [splitChar] at h
  | x :: rest, a, b, h => by
    unfold splitChar at h
    by_cases hc : (x == sep) = true
    · rw [if_pos hc] at h
      injection h with h1 h2
      have : rest = b := splitChar_eq_single h2
      subst this
      rw [← h1]
      simp [beq_iff_eq.mp hc]
    · rw [if_neg (by simp [hc])] at h
      cases hs : splitChar sep rest with
      | nil => exact absurd hs (splitChar_ne_nil _ _)
      | cons q qs =>
        rw [hs] at h
        injection h with h1 h2
        have : rest = q ++ sep :: b := splitChar_eq_pair (by rw [hs, h2])
        subst this
        rw [← h1]
        rfl

theorem splitChar_append_countC_zero {sep : Char} :
    ∀ {a : List Char} (b : List Char), countC sep a = 0 →
      splitChar sep (a ++ sep :: b) = a :: splitChar sep b
  | [], b, _ => by simp [splitChar]
  | x :: xs, b, h => by
    simp [countC] at h
    obtain ⟨h1, h2⟩ := h
    have hx : (x == sep) = false := by
      by_contra hc
      simp at hc
      simp [hc] at h1
    have hrec := @splitChar_append_countC_zero sep xs b h2
    show splitChar sep (x :: (xs ++ sep :: b)) = (x :: xs) :: splitChar sep b
    conv_lhs => unfold splitChar
    simp only [hx, Bool.false_eq_true, if_false]
    rw [hrec]

theorem splitChar_countC_zero {sep : Char} :
    ∀ {b : List Char}, countC sep b = 0 → splitChar sep b = [b]
  | [], _ => by simp [splitChar]
  | x :: xs, h => by
    simp [countC] at h
    obtain ⟨h1, h2⟩ := h
    have hx : (x == sep) = false := by
      by_contra hc
      simp at hc
      simp [hc] at h1
    have hrec := @splitChar_countC_zero sep xs h2
    show splitChar sep (x :: xs) = [x :: xs]
    conv_lhs => unfold splitChar
    simp only [hx, Bool.false_eq_true, if_false]
    rw [hrec]

theorem emailCheckVal_ok_iff (f : String) (s : List Char) :
    emailCheckVal f s = .ok () ↔ emailSpec s := by
  have hlen := length_splitChar '@' s
  constructor
  · intro h
    unfold emailCheckVal at h
    by_cases h1 : (containsC '@' s && containsC '.' s) = true
    swap
    · rw [if_pos (by simp [h1])] at h
      simp [vErr] at h
    · rw [if_neg (by simp [h1])] at h
      by_cases h2 : ((splitChar '@' s).length != 2
          || ((splitChar '@' s).getD 0 []).isEmpty
          || ((splitChar '@' s).getD 1 []).isEmpty
          || !(containsC '.' ((splitChar '@' s).getD 1 []))) = true
      · rw [if_pos h2] at h
        simp [vErr] at h
      · simp only [Bool.or_eq_true, not_or] at h2
        obtain ⟨⟨⟨hl, he0⟩, he1⟩, hc⟩ := h2
        simp at hl he0 he1 hc
        cases hp : splitChar '@' s with
        | nil => exact absurd hp (splitChar_ne_nil _ _)
        | cons a ps =>
          cases ps with
          | nil => rw [hp] at hl; simp at hl
          | cons b ps2 =>
            cases ps2 with
            | cons q qs => rw [hp] at hl; simp at hl
            | nil =>
              rw [hp] at hlen hl he0 he1 hc
              simp at hlen he0 he1 hc
              refine ⟨by omega, a, b, splitChar_eq_pair hp, ?_, ?_, ?_⟩
              · simpa using he0
              · simpa using he1
              · simpa using hc
  · intro hspec
    obtain ⟨hcount, a, b, hs, ha, hb, hdot⟩ := hspec
    subst hs
    rw [countC_append] at hcount
    simp [countC] at hcount
    have hca : countC '@' a = 0 := by omega
    have hcb : countC '@' b = 0 := by omega
    have hsplit : splitChar '@' (a ++ '@' :: b) = [a, b] := by
      rw [splitChar_append_countC_zero b hca, splitChar_countC_zero hcb]
    have h1 : containsC '@' (a ++ '@' :: b) = true := by
      rw [containsC_append]
      simp [containsC]
    have h2 : containsC '.' (a ++ '@' :: b) = true := by
      rw [containsC_append]
      simp [containsC, hdot]
    unfold emailCheckVal
    rw [if_neg (by simp [h1, h2])]
    rw [if_neg (by simp [hsplit, ha, hb, hdot])]

theorem mapError_attach (x : Except OximodError β) :
    x.mapError attach_printables = x := by
  cases x <;> rfl

theorem validate_single (rx : RegexOracle) (fld : FieldSpec) :
    validate rx [fld] = firstErr (fieldChecks rx fld) := by
  simp [validate]

theorem fieldChecks_optStr_none (rx : RegexOracle) (f : String) (args : ValidateArgs)
    {c : Except OximodError Unit}
    (hc : c ∈ fieldChecks rx ⟨f, args, .optStr none⟩) :
    c = .ok () ∨ c = vErr (requiredMsg f) ∨ c = vErr (nonEmptyMissingMsg f) := by
  unfold fieldChecks at hc
  simp only [List.mem_append] at hc
  rcases hc with ((((((((((h | h) | h) | h) | h) | h) | h) | h) | h) | h) | h)
  · simp at h
    obtain ⟨n, hn, hcc⟩ := h
    subst hcc
    left
    rfl
  · simp at h
    obtain ⟨n, hn, hcc⟩ := h
    subst hcc
    left
    rfl
  · split at h
    · simp at h
      subst h
      right
      left
      rfl
    · simp at h
  · split at h
    · simp at h
      subst h
      left
      rfl
    · simp at h
  · simp at h
    obtain ⟨p, hp, hcc⟩ := h
    subst hcc
    left
    rfl
  · split at h
    · simp at h
      subst h
      right
      right
      rfl
    · simp at h
  · split at h
    · simp at h
      subst h
      left
      rfl
    · simp at h
  · split at h
    · simp at h
      subst h
      left
      rfl
    · simp at h
  · split at h
    · simp at h
      subst h
      left
      rfl
    · simp at h
  · simp at h
    obtain ⟨m, hm, hcc⟩ := h
    subst hcc
    left
    rfl
  · simp at h
    obtain ⟨m, hm, hcc⟩ := h
    subst hcc
    left
    rfl

/-- C2 (amended): rules on one field are evaluated in the fixed
generator order — `min_length` is always checked first, then
`max_length`, `required`, `email`, `pattern`, `non_empty`, `positive`,
`negative`, `non_negative`, `min`, `max` — independent of the order the
keys are declared in the attribute, and the first failing check
anywhere in the record aborts the whole validation call (fail-fast,
not fail-all).  Part one is record-level fail-fast; part two shows a
failing `min_length` always wins no matter how the attribute was
declared. -/
theorem C2_fixed_order_fail_fast :
    (∀ (rx : RegexOracle) (fs gs : List FieldSpec),
      validate rx (fs ++ gs) =
        match validate rx fs with
        | .error e => .error e
        | .ok () => validate rx gs) ∧
    (∀ (rx : RegexOracle) (ds : List RuleDecl) (f : String) (n : Nat) (s : List Char),
      (parseValidateAttr ds).min_length = some n → rustLen s < n →
        validate rx [⟨f, parseValidateAttr ds, .str s⟩] = vErr (minLengthMsg f n)) := by
  constructor
  · exact validate_append
  · intro rx ds f n s hml hlt
    rw [validate_single]
    unfold fieldChecks
    rw [hml]
    simp only [Option.toList, List.map_cons, List.map_nil, List.cons_append]
    have hchk : minLengthCheck f n (.str s) = vErr (minLengthMsg f n) := by
      show (if rustLen s < n then vErr (minLengthMsg f n) else .ok ()) = _
      rw [if_pos hlt]
    rw [hchk]
    rfl

/-- Witness for C2: the amended theorem applied to the declaration
`#[validate(max_length = 1, min_length = 3)]` on the string "wx". -/
theorem C2_fixed_order_fail_fast_witness :
    validate noRegex [⟨"w", parseValidateAttr [.maxLengthD 1, .minLengthD 3], .str ['w', 'x']⟩]
      = vErr (minLengthMsg "w" 3) :=
  C2_fixed_order_fail_fast.2 noRegex [.maxLengthD 1, .minLengthD 3] "w" 3 ['w', 'x']
    (by decide) (by decide)

/-- C2 counterexample: on a field declared
`#[validate(max_length = 1, min_length = 3)]` with value "ab", the
first DECLARED rule that fails is `max_length` (byte length 2 > 1),
yet `validate` reports the later-declared `min_length` error, so the
error does not name the first declared failing rule. -/
theorem C2_declared_order_counterexample :
    maxLengthCheck "nm" 1 (.str ['a', 'b']) = vErr (maxLengthMsg "nm" 1) ∧
    validate noRegex [⟨"nm", parseValidateAttr [.maxLengthD 1, .minLengthD 3], .str ['a', 'b']⟩]
      = vErr (minLengthMsg "nm" 3) ∧
    validate noRegex [⟨"nm", parseValidateAttr [.maxLengthD 1, .minLengthD 3], .str ['a', 'b']⟩]
      ≠ vErr (maxLengthMsg "nm" 1) := by
  exact ⟨by decide, by decide, by decide⟩

/-- C3 counterexample: the generated length checks use Rust
`str::len()`, the UTF-8 BYTE length, not the character length: the
one-character string "é" (2 bytes) passes `MinLength(2)` although its
character length 1 is below the bound, so `validate` does not fail
exactly when the character length is below `n`. -/
theorem C3_char_length_counterexample :
    (['é'].length < 2) ∧
    validate noRegex [⟨"bio", parseValidateAttr [.minLengthD 2], .str ['é']⟩] = .ok () := by
  exact ⟨by decide, by decide⟩

/-- C3 (amended): for a string field with `MinLength(n)` and
`MaxLength(m)`, `validate` fails exactly when the string's UTF-8 BYTE
length is below `n` (with the error citing `n`) or above `m` (citing
`m`); a string whose byte length lies in `[n, m]` passes both. -/
theorem C3_length_bounds_bytes (rx : RegexOracle) (f : String) (n m : Nat) (s : List Char) :
    (rustLen s < n →
      validate rx [⟨f, { min_length := some n, max_length := some m }, .str s⟩]
        = vErr (minLengthMsg f n)) ∧
    (n ≤ rustLen s → m < rustLen s →
      validate rx [⟨f, { min_length := some n, max_length := some m }, .str s⟩]
        = vErr (maxLengthMsg f m)) ∧
    (n ≤ rustLen s → rustLen s ≤ m →
      validate rx [⟨f, { min_length := some n, max_length := some m }, .str s⟩]
        = .ok ()) := by
  have hlist : fieldChecks rx ⟨f, { min_length := some n, max_length := some m }, .str s⟩
      = [minLengthCheck f n (.str s), maxLengthCheck f m (.str s)] := by
    simp [fieldChecks, Option.toList]
  refine ⟨?_, ?_, ?_⟩
  · intro h1
    rw [validate_single, hlist]
    simp only [minLengthCheck]
    rw [if_pos h1]
    rfl
  · intro h1 h2
    rw [validate_single, hlist]
    simp only [minLengthCheck, maxLengthCheck]
    rw [if_neg (by omega), if_pos (by omega)]
    rfl
  · intro h1 h2
    rw [validate_single, hlist]
    simp only [minLengthCheck, maxLengthCheck]
    rw [if_neg (by omega), if_neg (by omega)]
    rfl

/-- Witness for C3: the amended theorem applied to "abc" inside the
bounds [2, 5]. -/
theorem C3_length_bounds_bytes_witness :
    validate noRegex [⟨"w3", { min_length := some 2, max_length := some 5 }, .str ['a', 'b', 'c']⟩]
      = .ok () :=
  (C3_length_bounds_bytes noRegex "w3" 2 5 ['a', 'b', 'c']).2.2 (by decide) (by decide)

/-- C4: for a present optional string checked by the Email rule,
`validate` passes exactly when the value has exactly one `'@'`, both
sides of it non-empty, and the domain side containing a `'.'`; in
particular "user@example.com" passes while "invalidemail.com" and
"user@domain" fail. -/
theorem C4_email_rule :
    (∀ (rx : RegexOracle) (f : String) (s : List Char),
      validate rx [⟨f, { email := some true }, .optStr (some s)⟩] = .ok () ↔ emailSpec s) ∧
    validate noRegex [⟨"em", { email := some true }, .optStr (some "user@example.com".data)⟩]
      = .ok () ∧
    validate noRegex [⟨"em", { email := some true }, .optStr (some "invalidemail.com".data)⟩]
      = vErr (emailMsg "em") ∧
    validate noRegex [⟨"em", { email := some true }, .optStr (some "user@domain".data)⟩]
      = vErr (emailMsg "em") := by
  refine ⟨?_, by decide, by decide, by decide⟩
  intro rx f s
  rw [validate_single]
  have hlist : fieldChecks rx ⟨f, { email := some true }, .optStr (some s)⟩
      = [emailCheckVal f s] := by
    simp [fieldChecks, Option.toList, emailCheck]
  rw [hlist]
  constructor
  · intro h
    apply (emailCheckVal_ok_iff f s).mp
    cases hv : emailCheckVal f s with
    | error e =>
      rw [hv] at h
      simp [firstErr] at h
    | ok u =>
      cases u
      rfl
  · intro hspec
    rw [(emailCheckVal_ok_iff f s).mpr hspec]
    rfl

/-- Witness for C4: the characterization applied to
"user@example.com". -/
theorem C4_email_rule_witness :
    emailSpec "user@example.com".data :=
  (C4_email_rule.1 noRegex "em" "user@example.com".data).mp (by decide)

/-- C9: when an optional string field holds None, the Email and
Pattern checks pass vacuously (they fire only on `Some`), so a record
with that field absent can be rejected only through the Required or
NonEmpty rule on it. -/
theorem C9_absent_optional_rules :
    (∀ (rx : RegexOracle) (f : String) (p : String),
      emailCheck f (.optStr none) = .ok () ∧
      patternCheck rx f p (.optStr none) = .ok ()) ∧
    (∀ (rx : RegexOracle) (f : String) (args : ValidateArgs) (e : OximodError),
      validate rx [⟨f, args, .optStr none⟩] = .error e →
        e = .ValidationError (requiredMsg f) ∨
          e = .ValidationError (nonEmptyMissingMsg f)) := by
  constructor
  · intro rx f p
    exact ⟨rfl, rfl⟩
  · intro rx f args e h
    rw [validate_single] at h
    have hmem := firstErr_error_mem h
    rcases fieldChecks_optStr_none rx f args hmem with h1 | h1 | h1
    · simp at h1
    · simp [vErr] at h1
      exact Or.inl h1
    · simp [vErr] at h1
      exact Or.inr h1

/-- Witness for C9: a record whose only rule is Required on an absent
field is rejected with the Required error. -/
theorem C9_absent_optional_rules_witness :
    (OximodError.ValidationError (requiredMsg "w9")
        = .ValidationError (requiredMsg "w9")) ∨
    (OximodError.ValidationError (requiredMsg "w9")
        = .ValidationError (nonEmptyMissingMsg "w9")) :=
  C9_absent_optional_rules.2 noRegex "w9" (parseValidateAttr [.requiredD])
    (.ValidationError (requiredMsg "w9")) (by decide)

/-- C5 (spec-modelled): `new()` and `default()` produce field-identical
records in which each field holds its declared default expression if
one is declared and otherwise the type's zero value; the
`User{name, age, active: default(true)}` example built via
`new().name("x")` has `age == 0` and `active == true`. -/
theorem C5_new_default_builder :
    (∀ fields : List FieldDecl, newRecord fields = defaultRecord fields) ∧
    lookupField (setField (newRecord
        [⟨"name", .tyString, none⟩, ⟨"age", .tyInt, none⟩,
          ⟨"active", .tyBool, some (.prim (.bBool true))⟩])
        "name" (.prim (.bStr "x"))) "age" = some (.prim (.bInt 0)) ∧
    lookupField (setField (newRecord
        [⟨"name", .tyString, none⟩, ⟨"age", .tyInt, none⟩,
          ⟨"active", .tyBool, some (.prim (.bBool true))⟩])
        "name" (.prim (.bStr "x"))) "active" = some (.prim (.bBool true)) ∧
    lookupField (setField (newRecord
        [⟨"name", .tyString, none⟩, ⟨"age", .tyInt, none⟩,
          ⟨"active", .tyBool, some (.prim (.bBool true))⟩])
        "name" (.prim (.bStr "x"))) "name" = some (.prim (.bStr "x")) := by
  refine ⟨?_, by decide, by decide, by decide⟩
  intro fields
  induction fields with
  | nil => rfl
  | cons fd rest ih =>
    unfold newRecord defaultRecord
    unfold defaultRecord at ih
    rw [List.map_cons, ih]
    cases fd.default_expr <;> rfl

/-- C6 counterexample: a later `set_global_client` call whose
connection step fails returns the ConnectionError kind, not the
init-conflict kind, so not every later call fails with the
init-conflict error. -/
theorem C6_set_once_counterexample :
    set_global_client (some 0) (.error "bad uri")
      = (.error (.ConnectionError "bad uri"), some 0) ∧
    isInitConflict (.ConnectionError "bad uri") = false := by
  exact ⟨rfl, rfl⟩

/-- C6 (amended): the global client is set-once: the first successful
call stores the client; every later call fails — with the
init-conflict kind when its connection step succeeds, with a
connection error when it does not — and leaves the originally stored
client in place, so `get_global_client` afterwards still returns the
first client; `get_global_client` before any successful initialization
fails with the client-missing kind. -/
theorem C6_client_set_once :
    (∀ c : Client, set_global_client none (.ok c) = (.ok (), some c)) ∧
    (∀ c0 c : Client, set_global_client (some c0) (.ok c)
        = (.error (.GlobalClientInitError "CLIENT set method failed."), some c0)) ∧
    (∀ (c0 : Client) (e : String), set_global_client (some c0) (.error e)
        = (.error (.ConnectionError e), some c0)) ∧
    (∀ (c0 : Client) (conn : Except String Client),
      get_global_client (set_global_client (some c0) conn).2 = .ok c0) ∧
    get_global_client none = .error (.GlobalClientMissing "Failed to clone arc") := by
  refine ⟨fun c => rfl, fun c0 c => rfl, fun c0 e => rfl, ?_, rfl⟩
  intro c0 conn
  cases conn <;> rfl

/-- C7: `update` and `update_one` run no validation rule: their result
is never a ValidationError, and a successful store outcome's
matched/modified counts are returned unchanged. -/
theorem C7_update_no_validation :
    ∀ (α : Type) (cl : Option Client) (env : StoreEnv α) (f u : Document),
      resultIsValidationError (updateM cl env f u) = false ∧
      resultIsValidationError (updateOneM cl env f u) = false ∧
      (∀ (c : Client) (r : UpdateResult), cl = some c → env.update_many f u = .ok r →
        updateM cl env f u = .ok r) ∧
      (∀ (c : Client) (r : UpdateResult), cl = some c → env.update_one f u = .ok r →
        updateOneM cl env f u = .ok r) := by
  intro α cl env f u
  refine ⟨?_, ?_, ?_, ?_⟩
  · cases cl with
    | none => rfl
    | some c =>
      cases h : env.update_many f u with
      | error e =>
        simp [updateM, get_collection, get_global_client, h, attach_printables,
          resultIsValidationError, isValidationError]
      | ok r =>
        simp [updateM, get_collection, get_global_client, h, resultIsValidationError]
  · cases cl with
    | none => rfl
    | some c =>
      cases h : env.update_one f u with
      | error e =>
        simp [updateOneM, get_collection, get_global_client, h, attach_printables,
          resultIsValidationError, isValidationError]
      | ok r =>
        simp [updateOneM, get_collection, get_global_client, h, resultIsValidationError]
  · intro c r hcl hok
    subst hcl
    simp [updateM, get_collection, get_global_client, hok]
  · intro c r hcl hok
    subst hcl
    simp [updateOneM, get_collection, get_global_client, hok]

/-- Witness for C7: a present client and a succeeding store: no
ValidationError, counts returned unchanged. -/
theorem C7_update_no_validation_witness :
    resultIsValidationError (updateM (some 0) envOkStore [] []) = false ∧
    updateM (some 0) envOkStore [] [] = .ok ⟨2, 1⟩ :=
  ⟨(C7_update_no_validation Unit (some 0) envOkStore [] []).1,
    (C7_update_no_validation Unit (some 0) envOkStore [] []).2.2.1 0 ⟨2, 1⟩ rfl rfl⟩

/-- C8: every by-id operation equals its filtered counterpart applied
to the filter `{_id: id}`, including in the error case
(`attach_printables` returns the error unchanged). -/
theorem C8_by_id_equivalence :
    ∀ (α : Type) (cl : Option Client) (env : StoreEnv α) (id : Nat) (u : Document),
      findByIdM cl env id = findOneM cl env (docIdFilter id) ∧
      updateByIdM cl env id u = updateOneM cl env (docIdFilter id) u ∧
      deleteByIdM cl env id = deleteOneM cl env (docIdFilter id) := by
  intro α cl env id u
  exact ⟨mapError_attach _, mapError_attach _, mapError_attach _⟩

/-- C1: when a validation rule fails, `save` returns that
ValidationError and performs no step at all: no collection handle, no
index creation, no serialization, no insert, collection contents
unchanged; when every rule passes it proceeds to resolve the
collection, ensure indexes, serialize, and insert, in that order. -/
theorem C1_save_validation_gate :
    ∀ (α : Type) (rx : RegexOracle) (fields : List FieldSpec) (specs : List IndexSpec)
      (cl : Option Client) (env : StoreEnv α) (toDoc : Except String Document)
      (st : List Document),
      (∀ e, validate rx fields = .error e →
        save rx fields specs cl env toDoc st = (.error e, [], st)) ∧
      (∀ (c : Client) (d : Document) (i : Nat),
        validate rx fields = .ok () → cl = some c →
        create_indexes_run specs env = .ok () → toDoc = .ok d →
        env.insert_one d = .ok (.objectId i) →
        save rx fields specs cl env toDoc st =
          (.ok i,
            .getCollection :: (if specs.isEmpty then [] else [.createIndexes])
              ++ [.serialize, .insert],
            st ++ [d])) := by
  intro α rx fields specs cl env toDoc st
  constructor
  · intro e h
    unfold save
    rw [h]
  · intro c d i hv hcl hcir htd hins
    subst hcl htd
    unfold save
    rw [hv]
    simp [get_collection, get_global_client, hcir, hins]

/-- Witness for C1: a Required failure blocks everything; an
all-passing record reaches insert with the full step trace. -/
theorem C1_save_validation_gate_witness :
    save noRegex [⟨"req", parseValidateAttr [.requiredD], .optStr none⟩] [] (some 0)
        envOkStore (.ok []) []
      = (.error (.ValidationError (requiredMsg "req")), [], []) ∧
    save noRegex [] [] (some 0) envOkStore (.ok []) []
      = (.ok 7, [.getCollection, .serialize, .insert], [[]]) :=
  ⟨(C1_save_validation_gate Unit noRegex
        [⟨"req", parseValidateAttr [.requiredD], .optStr none⟩] [] (some 0) envOkStore
        (.ok []) []).1 (.ValidationError (requiredMsg "req")) (by decide),
    (C1_save_validation_gate Unit noRegex [] [] (some 0) envOkStore (.ok []) []).2
      0 [] 7 rfl rfl rfl rfl rfl⟩

/-- C10: driver failures in save's insert, update, update_one, delete,
delete_one, find, find_one, count and clear are classified as
ConnectionError regardless of cause; index creation maps to
IndexError, aggregation to AggregationError, and record/document
conversion to SerializationError. -/
theorem C10_error_kinds :
    ∀ (α : Type) (c : Client) (env : StoreEnv α) (s : String) (f u d : Document)
      (p : List Document) (st : List Document) (specs : List IndexSpec),
      (env.insert_one d = .error s →
        (save noRegex [] [] (some c) env (.ok d) st).1 = .error (.ConnectionError s)) ∧
      (env.update_many f u = .error s →
        updateM (some c) env f u = .error (.ConnectionError s)) ∧
      (env.update_one f u = .error s →
        updateOneM (some c) env f u = .error (.ConnectionError s)) ∧
      (env.delete_many f = .error s →
        deleteM (some c) env f = .error (.ConnectionError s)) ∧
      (env.delete_one f = .error s →
        deleteOneM (some c) env f = .error (.ConnectionError s)) ∧
      (env.find_docs f = .error s →
        findM (some c) env f = .error (.ConnectionError s)) ∧
      (env.find_one_doc f = .error s →
        findOneM (some c) env f = .error (.ConnectionError s)) ∧
      (env.count_documents f = .error s →
        countM (some c) env f = .error (.ConnectionError s)) ∧
      (env.delete_many [] = .error s →
        clearM (some c) env = .error (.ConnectionError s)) ∧
      (specs ≠ [] → env.create_indexes = .error s →
        (save noRegex [] specs (some c) env (.ok d) st).1 = .error (.IndexError s)) ∧
      (env.aggregate_docs p = .error s →
        aggregateM (some c) env p = .error (.AggregationError s)) ∧
      ((save noRegex [] [] (some c) env (.error s) st).1
        = .error (.SerializationError s)) ∧
      (∀ dd : Document, env.find_one_doc f = .ok (some dd) →
        env.from_document dd = .error s →
        findOneM (some c) env f = .error (.SerializationError s)) := by
  intro α c env s f u d p st specs
  refine ⟨?_, ?_, ?_, ?_, ?_, ?_, ?_, ?_, ?_, ?_, ?_, ?_, ?_⟩
  · intro h
    simp [save, validate, firstErr, get_collection, get_global_client,
      create_indexes_run, h, attach_printables]
  · intro h
    simp [updateM, get_collection, get_global_client, h, attach_printables]
  · intro h
    simp [updateOneM, get_collection, get_global_client, h, attach_printables]
  · intro h
    simp [deleteM, get_collection, get_global_client, h, attach_printables]
  · intro h
    simp [deleteOneM, get_collection, get_global_client, h, attach_printables]
  · intro h
    simp [findM, get_collection, get_global_client, h, attach_printables]
  · intro h
    simp [findOneM, get_collection, get_global_client, h, attach_printables]
  · intro h
    simp [countM, get_collection, get_global_client, h, attach_printables]
  · intro h
    simp [clearM, get_collection, get_global_client, h, attach_printables]
  · intro hne h
    cases specs with
    | nil => exact absurd rfl hne
    | cons sp sps =>
      simp [save, validate, firstErr, get_collection, get_global_client,
        create_indexes_run, h, attach_printables]
  · intro h
    simp [aggregateM, get_collection, get_global_client, h, attach_printables]
  · simp [save, validate, firstErr, get_collection, get_global_client,
      create_indexes_run, attach_printables]
  · intro dd h1 h2
    simp [findOneM, get_collection, get_global_client, h1, h2, attach_printables]

/-- Witness for C10: each error-mapping conjunct exercised at a
concrete failing store. -/
theorem C10_error_kinds_witness :
    (save noRegex [] [] (some 0) (envFailStore "boom") (.ok []) []).1
      = .error (.ConnectionError "boom") ∧
    updateM (some 0) (envFailStore "boom") [] [] = .error (.ConnectionError "boom") ∧
    (save noRegex [] [⟨"f", 1, none, none, none, none, none⟩] (some 0)
        (envFailStore "boom") (.ok []) []).1 = .error (.IndexError "boom") ∧
    aggregateM (some 0) (envFailStore "boom") [] = .error (.AggregationError "boom") ∧
    (save noRegex [] [] (some 0) envOkStore (.error "bad doc") []).1
      = .error (.SerializationError "bad doc") ∧
    findOneM (some 0) (envParseFailStore "boom") [] = .error (.SerializationError "boom") :=
  ⟨(C10_error_kinds Unit 0 (envFailStore "boom") "boom" [] [] [] [] [] []).1 rfl,
    (C10_error_kinds Unit 0 (envFailStore "boom") "boom" [] [] [] [] [] []).2.1 rfl,
    (C10_error_kinds Unit 0 (envFailStore "boom") "boom" [] [] [] [] []
        [⟨"f", 1, none, none, none, none, none⟩]).2.2.2.2.2.2.2.2.2.1 (by decide) rfl,
    (C10_error_kinds Unit 0 (envFailStore "boom") "boom" [] [] [] [] [] []).2.2.2.2.2.2.2.2.2.2.1 rfl,
    (C10_error_kinds Unit 0 envOkStore "bad doc" [] [] [] [] [] []).2.2.2.2.2.2.2.2.2.2.2.1,
    (C10_error_kinds Unit 0 (envParseFailStore "boom") "boom" [] [] [] [] []
        []).2.2.2.2.2.2.2.2.2.2.2.2 [] rfl rfl⟩

end Oximod
